import Mathlib

/-!
Verification of the scheduling and resilient-execution engine of the
github_syncer repository (sources: `scheduler.py`, `sync_releases.py`).

The embedding models time as natural-number seconds (hours where noted).
Python `datetime` arithmetic becomes `Nat` arithmetic; `timedelta(minutes=m)`
becomes `m * 60` seconds.  Fallible operations return `Option`/`Except`.
The notification handler is modelled as always set (as in the `--schedule`
entry point of `sync_releases.py`); an invocation of the handler is recorded
as an emitted `NotifyEvent` value.
-/

/-- Error-handling configuration read from `settings.error_handling`,
with the `.get` defaults used in `scheduler.py`. -/
structure ErrorHandlingConfig where
  max_consecutive_failures : Nat := 3
  failure_cooldown_minutes : Nat := 60
deriving DecidableEq, Repr

/-- Time-window configuration read from `scheduler.time_window`,
with the `.get` defaults used in `scheduler.py`. -/
structure TimeWindowConfig where
  enabled : Bool := false
  start_hour : Nat := 0
  end_hour : Nat := 23
deriving DecidableEq, Repr

/-- Mutable failure state of `TaskScheduler`: `consecutive_failures` and
`last_failure_time` (a `datetime` or `None` in the source). -/
structure FailureState where
  consecutive_failures : Nat
  last_failure_time : Option Nat
deriving DecidableEq, Repr

/-- Result of the injected task callable: either a mapping whose values are
booleans (`scheduler.py` only inspects the values, via
`sum(1 for v in results.values() if v)` and `len(results)`), or a bare
boolean. -/
inductive TaskResult where
  | dict (values : List Bool)
  | bool (b : Bool)
deriving DecidableEq, Repr

/-- An invocation of the notification handler: either
`send_success_notification(results, duration)` or
`send_failure_notification(error_msg, consecutive_failures)`. -/
inductive NotifyEvent where
  | success (results : TaskResult) (duration : Nat)
  | failure (reason : String) (consecutive_failures : Nat)
deriving DecidableEq, Repr

/-- `TaskScheduler._handle_failure`: increment `consecutive_failures`, set
`last_failure_time := now`, and notify with the post-increment count. -/
def handle_failure (st : FailureState) (now : Nat) (error_msg : String) :
    FailureState × NotifyEvent :=
  let st2 : FailureState :=
    { consecutive_failures := st.consecutive_failures + 1
      last_failure_time := some now }
  (st2, NotifyEvent.failure error_msg st2.consecutive_failures)

/-- `TaskScheduler._in_cooldown`: false when no failure time is recorded or
the failure streak is below the threshold; otherwise true exactly while
`now < last_failure_time + failure_cooldown_minutes` (converted to seconds). -/
def in_cooldown (cfg : ErrorHandlingConfig) (st : FailureState) (now : Nat) :
    Bool :=
  match st.last_failure_time with
  | none => false
  | some t =>
    if st.consecutive_failures < cfg.max_consecutive_failures then false
    else decide (now < t + cfg.failure_cooldown_minutes * 60)

/-- `TaskScheduler._in_time_window`: always true when disabled; inclusive
range check, with wraparound semantics when `start_hour > end_hour`. -/
def in_time_window (cfg : TimeWindowConfig) (current_hour : Nat) : Bool :=
  if cfg.enabled = false then true
  else if cfg.start_hour ≤ cfg.end_hour then
    decide (cfg.start_hour ≤ current_hour ∧ current_hour ≤ cfg.end_hour)
  else
    decide (cfg.start_hour ≤ current_hour ∨ current_hour ≤ cfg.end_hour)

/-- The result-classification part of
`TaskScheduler._execute_with_error_handling` (lines 72–94): for a mapping,
`success_rate = success_count / total_count if total_count > 0 else 0` and
success means `success_rate >= 0.5`, rendered exactly as
`0 < total_count ∧ total_count ≤ 2 * success_count`; success resets the
counter to 0 and (only in the mapping branch) notifies success; otherwise
`_handle_failure` runs with the source's reason string. -/
def evaluate_results (st : FailureState) (now duration : Nat) :
    TaskResult → FailureState × Option NotifyEvent
  | .dict values =>
    let success_count := (values.filter (fun v => v)).length
    let total_count := values.length
    if 0 < total_count ∧ total_count ≤ 2 * success_count then
      ({ st with consecutive_failures := 0 },
        some (NotifyEvent.success (.dict values) duration))
    else
      let r := handle_failure st now "任务执行成功率过低"
      (r.1, some r.2)
  | .bool b =>
    if b then ({ st with consecutive_failures := 0 }, none)
    else
      let r := handle_failure st now "任务执行失败"
      (r.1, some r.2)

/-- Outcome of one scheduler tick: the updated failure state, the
notification emitted (if any), and whether the task callable was invoked. -/
structure TickOutput where
  state : FailureState
  notify : Option NotifyEvent
  invoked : Bool
deriving DecidableEq, Repr

/-- `TaskScheduler._execute_with_error_handling`: skip during cooldown, skip
outside the time window (the random delay only sleeps and is absorbed into
`current_hour`), otherwise run the task; a raised exception (`Except.error`)
is caught and routed to `_handle_failure` with the exception's message.  The
function is total: no task outcome makes the tick itself fail. -/
def execute_with_error_handling (ecfg : ErrorHandlingConfig)
    (wcfg : TimeWindowConfig) (st : FailureState) (now current_hour : Nat)
    (task : Except String TaskResult) (duration : Nat) : TickOutput :=
  if in_cooldown ecfg st now then ⟨st, none, false⟩
  else if in_time_window wcfg current_hour = false then ⟨st, none, false⟩
  else
    match task with
    | .error e =>
      let r := handle_failure st now e
      ⟨r.1, some r.2, true⟩
    | .ok res =>
      let r := evaluate_results st now duration res
      ⟨r.1, r.2, true⟩

/-- The claim-level classification of a task result as a qualifying success:
true-fraction ≥ 0.5 for the mapping form (boundary inclusive, empty mapping
excluded since its rate is defined as 0), or the bare boolean `true`.  This
is exactly the branch condition of `evaluate_results`. -/
def qualifying_success : TaskResult → Bool
  | .dict values =>
    decide (0 < values.length ∧
      values.length ≤ 2 * (values.filter (fun v => v)).length)
  | .bool b => b

/-- GitHub rate-limit data as consumed by `check_rate_limit`: the
`rate.remaining` and `rate.reset` fields.  A failed or empty
`get_rate_limit_info` answer is `none`. -/
structure RateLimitInfo where
  remaining : Nat
  reset : Nat
deriving DecidableEq, Repr

/-- `api_limits.github` configuration with the `.get` defaults used in
`sync_releases.py`. -/
structure ApiLimitsConfig where
  respect_rate_limit : Bool := true
  retry_on_limit : Bool := true
  max_retries : Nat := 3
  backoff_factor : Nat := 2
deriving DecidableEq, Repr

/-- `GitHubAPIClient.check_rate_limit`: returns whether the request may
proceed, paired with the number of seconds slept.  `wait_seconds`
is `max(0, reset - now)`, which truncated `Nat` subtraction renders exactly;
a short wait (`0 < wait ≤ 3600`) sleeps `wait + 10` seconds and proceeds. -/
def check_rate_limit (cfg : ApiLimitsConfig) (info : Option RateLimitInfo)
    (now : Nat) : Bool × Nat :=
  if cfg.respect_rate_limit = false then (true, 0)
  else
    match info with
    | none => (true, 0)
    | some i =>
      if i.remaining ≤ 5 then
        let wait_seconds := i.reset - now
        if cfg.retry_on_limit = true ∧ 0 < wait_seconds then
          if wait_seconds ≤ 3600 then (true, wait_seconds + 10)
          else (false, 0)
        else (false, 0)
      else (true, 0)

/-- Observable outcome of one HTTP attempt inside
`GitHubAPIClient.make_request`: 200, 403 with "rate limit" in the body,
other 403, 404, or a `requests.RequestException` (which also covers
`raise_for_status` on the remaining status codes). -/
inductive ReqOutcome where
  | ok (body : Nat)
  | rateLimited
  | forbidden
  | notFound
  | transientError
deriving DecidableEq, Repr

/-- The retry loop of `GitHubAPIClient.make_request`, recursing on the
remaining loop iterations (`fuel = max_retries + 1 - attempt`).  `rateOk`
gives the result of `check_rate_limit` at each attempt; `responses` gives the
attempt's HTTP outcome.  Returns the response body (if any) together with the
list of inter-retry waits, in order. -/
def make_request_go (rateOk : Nat → Bool) (responses : Nat → ReqOutcome)
    (backoff_factor max_retries : Nat) : Nat → Nat → Option Nat × List Nat
  | _, 0 => (none, [])
  | attempt, fuel + 1 =>
    if rateOk attempt = false then (none, [])
    else
      match responses attempt with
      | .ok body => (some body, [])
      | .rateLimited =>
        if attempt < max_retries then
          let r := make_request_go rateOk responses backoff_factor max_retries
            (attempt + 1) fuel
          (r.1, backoff_factor ^ attempt * 60 :: r.2)
        else (none, [])
      | .forbidden => (none, [])
      | .notFound => (none, [])
      | .transientError =>
        if attempt < max_retries then
          let r := make_request_go rateOk responses backoff_factor max_retries
            (attempt + 1) fuel
          (r.1, backoff_factor ^ attempt * 5 :: r.2)
        else (none, [])

/-- `GitHubAPIClient.make_request`: run the loop
`for attempt in range(max_retries + 1)`. -/
def make_request (rateOk : Nat → Bool) (responses : Nat → ReqOutcome)
    (backoff_factor max_retries : Nat) : Option Nat × List Nat :=
  make_request_go rateOk responses backoff_factor max_retries 0
    (max_retries + 1)

/-- State of `TaskScheduler.start_cron_scheduler`: the croniter cursor
(`iter` is the instant the iterator last advanced to, so `get_next` returns
`nextFire iter`), the current wall clock, and the number of executed ticks. -/
structure CronState where
  iter : Nat
  now : Nat
  ticks : Nat
deriving DecidableEq, Repr

/-- One iteration of the `while self.running` loop of
`start_cron_scheduler`, for an abstract cron successor `nextFire`
(`croniter.get_next` for a fixed expression, always strictly in the future).
If `next_run ≤ now` the tick runs and the croniter is rebuilt from the new
current time; otherwise the segmented sleep runs until the fire time arrives
(modelled as waking exactly at `next_run`, the earliest instant at which the
inner loop's `now >= next_run` check passes) — and, the `get_next` call
having already advanced the iterator, the cursor now sits at `next_run`. -/
def cron_step (nextFire : Nat → Nat) (s : CronState) : CronState :=
  let next_run := nextFire s.iter
  if next_run ≤ s.now then
    { iter := s.now, now := s.now, ticks := s.ticks + 1 }
  else
    { iter := next_run, now := next_run, ticks := s.ticks }

/-- `n` iterations of the cron scheduler loop. -/
def cron_run (nextFire : Nat → Nat) (s : CronState) : Nat → CronState
  | 0 => s
  | n + 1 => cron_run nextFire (cron_step nextFire s) n

/-! ## Helper lemmas -/

/-- A qualifying success resets the failure counter to zero, from any state. -/
theorem eval_qualifying_zero (st : FailureState) (now duration : Nat)
    (r : TaskResult) (h : qualifying_success r = true) :
    (evaluate_results st now duration r).1.consecutive_failures = 0 := by
  cases r with
  | dict values =>
    simp only [qualifying_success, decide_eq_true_eq] at h
    simp [evaluate_results, h]
  | bool b =>
    simp only [qualifying_success] at h
    subst h
    simp [evaluate_results]

/-- Folding any list of qualifying successes preserves a zero counter. -/
theorem foldl_qualifying_zero (now duration : Nat) (rs : List TaskResult) :
    ∀ s : FailureState, (∀ x ∈ rs, qualifying_success x = true) →
      s.consecutive_failures = 0 →
      (rs.foldl (fun s x => (evaluate_results s now duration x).1)
        s).consecutive_failures = 0 := by
  induction rs with
  | nil => intro s _ h0; simpa using h0
  | cons x xs ih =>
    intro s hall _
    simp only [List.foldl_cons]
    exact ih _ (fun y hy => hall y (List.mem_cons_of_mem x hy))
      (eval_qualifying_zero s now duration x (hall x (List.mem_cons_self x xs)))

/-- The cron loop maintains `iter = now` and never increments `ticks`, as
long as the cron successor is strictly increasing. -/
theorem cron_run_invariant (nextFire : Nat → Nat) (hf : ∀ t, t < nextFire t)
    (n : Nat) : ∀ s : CronState, s.iter = s.now →
      (cron_run nextFire s n).ticks = s.ticks ∧
      (cron_run nextFire s n).iter = (cron_run nextFire s n).now := by
  induction n with
  | zero => intro s hs; exact ⟨rfl, hs⟩
  | succ n ih =>
    intro s hs
    have h1 : s.now < nextFire s.iter := by rw [← hs]; exact hf s.iter
    have hstep : cron_step nextFire s =
        { iter := nextFire s.iter, now := nextFire s.iter, ticks := s.ticks } := by
      simp [cron_step, Nat.not_le.mpr h1]
    rw [cron_run, hstep]
    exact ih _ rfl

/-! ## Claim theorems -/

/-- C1: in cron mode the code does NOT execute a tick for each computed fire
time.  Starting from the source's initial state (croniter built at the
current instant, so `iter = now`, zero ticks), for any strictly-future cron
successor the loop executes zero ticks forever, even though the first
computed fire time does arrive (after one loop iteration the wall clock has
reached `nextFire s0.iter`): control re-enters the outer loop, `get_next`
yields the following fire time from the already-advanced iterator, and the
task is never invoked. -/
theorem cron_scheduler_never_fires (nextFire : Nat → Nat)
    (hf : ∀ t, t < nextFire t) (s0 : CronState) (hs : s0.iter = s0.now)
    (h0 : s0.ticks = 0) (n : Nat) :
    (cron_run nextFire s0 n).ticks = 0 ∧
    (cron_run nextFire s0 1).now = nextFire s0.iter := by
  constructor
  · rw [(cron_run_invariant nextFire hf n s0 hs).1, h0]
  · have h1 : s0.now < nextFire s0.iter := by rw [← hs]; exact hf s0.iter
    simp [cron_run, cron_step, Nat.not_le.mpr h1]

/-- Witness for C1: an expression firing every 6 hours (21600 s), started at
time 0; after 10 loop iterations no tick has run although the first fire
time (21600) arrived during the first iteration. -/
theorem cron_scheduler_never_fires_witness :
    (cron_run (fun t => t + 21600) ⟨0, 0, 0⟩ 10).ticks = 0 ∧
    (cron_run (fun t => t + 21600) ⟨0, 0, 0⟩ 1).now = 21600 :=
  cron_scheduler_never_fires (fun t => t + 21600)
    (fun t => by show t < t + 21600; omega) ⟨0, 0, 0⟩ rfl rfl 10

/-- C2: for every failure-policy state with a recorded failure time,
`in_cooldown` is true iff the failure streak has reached the threshold and
the current time is strictly before `last_failure_time + cooldown_minutes`;
below the threshold it is false regardless of `last_failure_time`; and at
the boundary instant it is already false, with no task execution involved. -/
theorem in_cooldown_spec (cfg : ErrorHandlingConfig) (st : FailureState)
    (now t : Nat) (h : st.last_failure_time = some t) :
    (in_cooldown cfg st now = true ↔
      cfg.max_consecutive_failures ≤ st.consecutive_failures ∧
        now < t + cfg.failure_cooldown_minutes * 60) ∧
    (∀ st2 : FailureState, ∀ now2 : Nat,
      st2.consecutive_failures < cfg.max_consecutive_failures →
        in_cooldown cfg st2 now2 = false) ∧
    in_cooldown cfg st (t + cfg.failure_cooldown_minutes * 60) = false := by
  refine ⟨?_, ?_, ?_⟩
  · simp only [in_cooldown, h]
    split_ifs with hc
    · simp only [Bool.false_eq_true, false_iff]
      omega
    · simp only [decide_eq_true_eq]
      omega
  · intro st2 now2 hlt
    cases hl : st2.last_failure_time with
    | none => simp [in_cooldown, hl]
    | some t2 => simp [in_cooldown, hl, hlt]
  · simp only [in_cooldown, h]
    split_ifs with hc
    · rfl
    · simp

/-- Witness for C2: threshold 3 reached, failure at 100, cooldown 60 min,
queried at 200 — in cooldown. -/
theorem in_cooldown_spec_witness :
    in_cooldown ⟨3, 60⟩ ⟨3, some 100⟩ 200 = true :=
  ((in_cooldown_spec ⟨3, 60⟩ ⟨3, some 100⟩ 200 100 rfl).1).mpr (by decide)

/-- C3: every qualifying success (mapping with true-fraction ≥ 0.5, boundary
inclusive, or the bare boolean `true`) resets `consecutive_failures` to 0,
and idempotently: any further sequence of qualifying successes leaves the
counter at 0. -/
theorem qualifying_success_resets (st : FailureState) (now duration : Nat)
    (r : TaskResult) (h : qualifying_success r = true) :
    (evaluate_results st now duration r).1.consecutive_failures = 0 ∧
    ∀ rs : List TaskResult, (∀ x ∈ rs, qualifying_success x = true) →
      (rs.foldl (fun s x => (evaluate_results s now duration x).1)
        (evaluate_results st now duration r).1).consecutive_failures = 0 := by
  refine ⟨eval_qualifying_zero st now duration r h, ?_⟩
  intro rs hall
  exact foldl_qualifying_zero now duration rs _ hall
    (eval_qualifying_zero st now duration r h)

/-- Witness for C3: a 1/2 mapping success followed by further successes,
starting from 5 consecutive failures. -/
theorem qualifying_success_resets_witness :
    (evaluate_results ⟨5, some 7⟩ 0 1
      (.dict [true, false])).1.consecutive_failures = 0 ∧
    ([TaskResult.bool true, TaskResult.dict [true]].foldl
      (fun s x => (evaluate_results s 0 1 x).1)
      (evaluate_results ⟨5, some 7⟩ 0 1
        (.dict [true, false])).1).consecutive_failures = 0 :=
  ⟨(qualifying_success_resets ⟨5, some 7⟩ 0 1 (.dict [true, false])
      (by decide)).1,
   (qualifying_success_resets ⟨5, some 7⟩ 0 1 (.dict [true, false])
      (by decide)).2 [TaskResult.bool true, TaskResult.dict [true]]
      (by decide)⟩

/-- C4 counterexample: a bare boolean `true` result is classified as a
success, yet the tick emits no success notification (the source only sends
`send_success_notification` in the mapping branch), falsifying the claim at
this input. -/
theorem success_bool_no_notification :
    qualifying_success (.bool true) = true ∧
    (execute_with_error_handling ⟨3, 60⟩ ⟨false, 0, 23⟩ ⟨0, none⟩ 0 12
      (.ok (.bool true)) 5).notify = none := by
  constructor
  · rfl
  · rfl

/-- C4 amended: on a tick that reaches task invocation, a mapping result
classified as Success triggers the success callback with the result and the
measured duration; any result classified as Failure triggers the failure
callback with a reason string and the post-increment failure count; but a
bare boolean `true` success triggers no callback. -/
theorem notify_on_outcome (ecfg : ErrorHandlingConfig)
    (wcfg : TimeWindowConfig) (st : FailureState)
    (now current_hour duration : Nat)
    (hcd : in_cooldown ecfg st now = false)
    (hw : in_time_window wcfg current_hour = true) :
    (∀ values : List Bool, qualifying_success (.dict values) = true →
      (execute_with_error_handling ecfg wcfg st now current_hour
        (.ok (.dict values)) duration).notify
        = some (.success (.dict values) duration)) ∧
    (∀ r : TaskResult, qualifying_success r = false →
      ∃ reason : String,
        (execute_with_error_handling ecfg wcfg st now current_hour
          (.ok r) duration).notify
          = some (.failure reason (st.consecutive_failures + 1))) ∧
    (execute_with_error_handling ecfg wcfg st now current_hour
      (.ok (.bool true)) duration).notify = none := by
  refine ⟨?_, ?_, ?_⟩
  · intro values hq
    simp only [qualifying_success, decide_eq_true_eq] at hq
    simp [execute_with_error_handling, hcd, hw, evaluate_results, hq]
  · intro r hq
    cases r with
    | dict values =>
      simp only [qualifying_success, decide_eq_false_iff_not] at hq
      refine ⟨"任务执行成功率过低", ?_⟩
      simp [execute_with_error_handling, hcd, hw, evaluate_results, hq,
        handle_failure]
    | bool b =>
      simp only [qualifying_success] at hq
      subst hq
      refine ⟨"任务执行失败", ?_⟩
      simp [execute_with_error_handling, hcd, hw, evaluate_results,
        handle_failure]
  · simp [execute_with_error_handling, hcd, hw, evaluate_results]

/-- Witness for C4 (amended): a 1/2-successful mapping from a clean state,
inside the (disabled, hence always-open) time window. -/
theorem notify_on_outcome_witness :
    (execute_with_error_handling ⟨3, 60⟩ ⟨false, 0, 23⟩ ⟨1, some 5⟩ 10 12
      (.ok (.dict [true, false])) 7).notify
      = some (.success (.dict [true, false]) 7) :=
  (notify_on_outcome ⟨3, 60⟩ ⟨false, 0, 23⟩ ⟨1, some 5⟩ 10 12 7
    (by decide) (by decide)).1 [true, false] (by decide)

/-- C5: an exception raised by the task during a tick that reaches
invocation is caught and converted into a failure: the counter increments by
exactly 1, `last_failure_time` is recorded, the failure callback receives
the exception's message, and the tick itself returns normally (the embedding
is a total function — nothing propagates past the tick boundary, so the
scheduler loop keeps running). -/
theorem task_exception_contained (ecfg : ErrorHandlingConfig)
    (wcfg : TimeWindowConfig) (st : FailureState)
    (now current_hour duration : Nat) (e : String)
    (hcd : in_cooldown ecfg st now = false)
    (hw : in_time_window wcfg current_hour = true) :
    execute_with_error_handling ecfg wcfg st now current_hour
      (.error e) duration =
      ⟨⟨st.consecutive_failures + 1, some now⟩,
        some (.failure e (st.consecutive_failures + 1)), true⟩ := by
  simp [execute_with_error_handling, hcd, hw, handle_failure]

/-- Witness for C5: a task raising "boom" from a clean state. -/
theorem task_exception_contained_witness :
    execute_with_error_handling ⟨3, 60⟩ ⟨false, 0, 23⟩ ⟨0, none⟩ 4 12
      (.error "boom") 2 =
      ⟨⟨1, some 4⟩, some (.failure "boom" 1), true⟩ :=
  task_exception_contained ⟨3, 60⟩ ⟨false, 0, 23⟩ ⟨0, none⟩ 4 12 2 "boom"
    (by decide) (by decide)

/-- C6 counterexample: remaining = 3 ≤ 5 and the wait until reset is
0 seconds ≤ 1 hour (reset instant equals the current time), yet with
enforcement and retry-on-limit enabled `check_rate_limit` fails fast instead
of blocking briefly and proceeding, falsifying the claim at this input. -/
theorem rate_limit_zero_wait_counterexample :
    (3 ≤ 5 ∧ 100 - 100 ≤ 3600) ∧
    check_rate_limit ⟨true, true, 3, 2⟩ (some ⟨3, 100⟩) 100 = (false, 0) := by
  constructor
  · decide
  · rfl

/-- C6 amended: with enforcement and retry-on-limit enabled and remaining
≤ 5, a strictly positive wait of at most 1 hour makes the check sleep
`wait + 10` seconds and proceed; a wait above 1 hour fails fast without
issuing the request; and a zero wait (reset time already reached) also
fails fast. -/
theorem rate_limit_wait_spec (cfg : ApiLimitsConfig) (i : RateLimitInfo)
    (now : Nat) (hr : cfg.respect_rate_limit = true)
    (hrl : cfg.retry_on_limit = true) (hrem : i.remaining ≤ 5) :
    (0 < i.reset - now → i.reset - now ≤ 3600 →
      check_rate_limit cfg (some i) now = (true, (i.reset - now) + 10)) ∧
    (3600 < i.reset - now →
      check_rate_limit cfg (some i) now = (false, 0)) ∧
    (i.reset - now = 0 →
      check_rate_limit cfg (some i) now = (false, 0)) := by
  refine ⟨fun h1 h2 => ?_, fun h1 => ?_, fun h1 => ?_⟩
  · simp [check_rate_limit, hr, hrl, hrem, h1, h2]
  · have h0 : 0 < i.reset - now := by omega
    have h2 : ¬ (i.reset - now ≤ 3600) := by omega
    simp [check_rate_limit, hr, hrl, hrem, h0, h2]
  · simp [check_rate_limit, hr, hrem, h1]

/-- Witness for C6 (amended): remaining 3, reset 30 seconds ahead — the
check sleeps 40 seconds and proceeds. -/
theorem rate_limit_wait_spec_witness :
    check_rate_limit ⟨true, true, 3, 2⟩ (some ⟨3, 130⟩) 100 = (true, 40) :=
  (rate_limit_wait_spec ⟨true, true, 3, 2⟩ ⟨3, 130⟩ 100 rfl rfl
    (by decide)).1 (by decide) (by decide)

/-- C7: with `backoff_factor = 2` and `max_retries = 3`, a run of
quota-rejection (403 rate-limit) responses yields exactly the inter-retry
waits 60, 120, 240 seconds before giving up, and a run of transient network
errors yields exactly 5, 10, 20 seconds — i.e. `2^attempt * 60` and
`2^attempt * 5` for attempts 0, 1, 2. -/
theorem backoff_sequences :
    make_request (fun _ => true) (fun _ => .rateLimited) 2 3
      = (none, [60, 120, 240]) ∧
    make_request (fun _ => true) (fun _ => .transientError) 2 3
      = (none, [5, 10, 20]) := by
  constructor
  · rfl
  · rfl

/-- C8: with the window enabled, the in-window check is the inclusive range
check for `start_hour ≤ end_hour` and the wraparound disjunction otherwise;
concretely, for 22–6 the hours 23, 0, 3 are inside and 12 is outside, and
for 9–17 hour 10 is inside and 20 is outside. -/
theorem time_window_spec :
    (∀ cfg : TimeWindowConfig, ∀ h : Nat, cfg.enabled = true →
      (in_time_window cfg h = true ↔
        (if cfg.start_hour ≤ cfg.end_hour
         then cfg.start_hour ≤ h ∧ h ≤ cfg.end_hour
         else cfg.start_hour ≤ h ∨ h ≤ cfg.end_hour))) ∧
    in_time_window ⟨true, 22, 6⟩ 23 = true ∧
    in_time_window ⟨true, 22, 6⟩ 0 = true ∧
    in_time_window ⟨true, 22, 6⟩ 3 = true ∧
    in_time_window ⟨true, 22, 6⟩ 12 = false ∧
    in_time_window ⟨true, 9, 17⟩ 10 = true ∧
    in_time_window ⟨true, 9, 17⟩ 20 = false := by
  refine ⟨?_, by decide, by decide, by decide, by decide, by decide,
    by decide⟩
  intro cfg h he
  simp only [in_time_window, he]
  rw [if_neg (by simp : ¬(true = false))]
  split_ifs with hle <;> simp

/-- Witness for C8: hour 23 is inside the 22–6 window via the general
characterization. -/
theorem time_window_spec_witness : in_time_window ⟨true, 22, 6⟩ 23 = true :=
  (time_window_spec.1 ⟨true, 22, 6⟩ 23 rfl).mpr (by decide)

/-- C9: an empty mapping result is classified as a failure with the
"success rate too low" reason (the rate is defined as 0 by the
`total_count > 0` guard, with no division performed), and
`consecutive_failures` increments by exactly 1. -/
theorem empty_results_counted_as_failure (ecfg : ErrorHandlingConfig)
    (wcfg : TimeWindowConfig) (st : FailureState)
    (now current_hour duration : Nat)
    (hcd : in_cooldown ecfg st now = false)
    (hw : in_time_window wcfg current_hour = true) :
    (execute_with_error_handling ecfg wcfg st now current_hour
      (.ok (.dict [])) duration).state.consecutive_failures
      = st.consecutive_failures + 1 ∧
    (execute_with_error_handling ecfg wcfg st now current_hour
      (.ok (.dict [])) duration).notify
      = some (.failure "任务执行成功率过低" (st.consecutive_failures + 1)) := by
  constructor <;>
    simp [execute_with_error_handling, hcd, hw, evaluate_results,
      handle_failure]

/-- Witness for C9: an empty mapping from a clean state. -/
theorem empty_results_counted_as_failure_witness :
    (execute_with_error_handling ⟨3, 60⟩ ⟨false, 0, 23⟩ ⟨0, none⟩ 0 12
      (.ok (.dict [])) 1).state.consecutive_failures = 1 ∧
    (execute_with_error_handling ⟨3, 60⟩ ⟨false, 0, 23⟩ ⟨0, none⟩ 0 12
      (.ok (.dict [])) 1).notify = some (.failure "任务执行成功率过低" 1) :=
  empty_results_counted_as_failure ⟨3, 60⟩ ⟨false, 0, 23⟩ ⟨0, none⟩ 0 12 1
    (by decide) (by decide)

/-- C10: quota enforcement is fail-open — with no rate-limit data (the
status query failed or returned nothing) the check passes with zero sleep,
likewise whenever enforcement is disabled in configuration; and a passing
check lets `make_request` issue the request immediately with no inter-retry
waits. -/
theorem rate_limit_fail_open :
    (∀ cfg : ApiLimitsConfig, ∀ now : Nat,
      check_rate_limit cfg none now = (true, 0)) ∧
    (∀ cfg : ApiLimitsConfig, ∀ info : Option RateLimitInfo, ∀ now : Nat,
      cfg.respect_rate_limit = false →
        check_rate_limit cfg info now = (true, 0)) ∧
    (∀ responses : Nat → ReqOutcome, ∀ body backoff mr : Nat,
      responses 0 = .ok body →
      make_request (fun _ => true) responses backoff mr
        = (some body, [])) := by
  refine ⟨?_, ?_, ?_⟩
  · intro cfg now
    by_cases h : cfg.respect_rate_limit = false <;>
      simp [check_rate_limit, h]
  · intro cfg info now h
    simp [check_rate_limit, h]
  · intro responses body backoff mr h
    simp [make_request, make_request_go, h]

/-- Witness for C10: enforcement disabled, quota nearly exhausted — the
check still passes without sleeping. -/
theorem rate_limit_fail_open_witness :
    check_rate_limit ⟨false, true, 3, 2⟩ (some ⟨0, 50⟩) 7 = (true, 0) :=
  rate_limit_fail_open.2.1 ⟨false, true, 3, 2⟩ (some ⟨0, 50⟩) 7 rfl
